import Mathlib

/-!
Shallow embedding of the `minus` terminal-pager core (src/src/lib.rs and
src/src/core/mod.rs) together with the parts of the Pager State, Search
Engine and Concurrency Coordinator that the design document specifies but
whose implementation modules (`src/utils.rs`, `src/error.rs`,
`src/core/ev_handler.rs`, `src/core/search.rs`, ...) are not present in the
source tree.  Definitions embedded from a source file carry the file and
line references; definitions reconstructed from the design document are
marked `Modelled from the spec:`.
-/

namespace Minus

/-- Modelled from the spec: the `LineNumbers` enum is declared in
`src/utils.rs`, which is not part of the given sources (lib.rs line 81 only
re-exports it).  The data model of the spec gives the line-numbering modes
as the enumeration {Disabled, Enabled-absolute}. -/
inductive LineNumbers where
  | Enabled
  | Disabled
deriving DecidableEq

/-- Embedding of `struct Pager` (src/src/lib.rs, lines 86-91): the text
content as one growable blob, the line-numbering mode, and the scroll
offset `upper_mark`.  The Rust `usize` field is modelled as `Nat`. -/
structure Pager where
  lines : String
  line_numbers : LineNumbers
  upper_mark : Nat
deriving DecidableEq

/-- Embedding of `PagerMutex = Arc<Mutex<Pager>>` (src/src/lib.rs,
line 84): the shared handle is modelled by the pager value it guards. -/
structure PagerMutex where
  pager : Pager
deriving DecidableEq

/-- Embedding of `Pager::new_dynamic` (src/src/lib.rs, lines 96-102). -/
def Pager.new_dynamic (lines : String) (ln : LineNumbers) : PagerMutex :=
  { pager := { lines := lines, line_numbers := ln, upper_mark := 0 } }

/-- Embedding of `Pager::new_static` (src/src/lib.rs, lines 105-111). -/
def Pager.new_static (lines : String) (ln : LineNumbers) : Pager :=
  { lines := lines, line_numbers := ln, upper_mark := 0 }

/-- Embedding of `Pager::default_static` (src/src/lib.rs, lines 114-116). -/
def Pager.default_static : Pager :=
  Pager.new_static "" LineNumbers.Disabled

/-- Embedding of `Pager::default_dynamic` (src/src/lib.rs, lines 119-121). -/
def Pager.default_dynamic : PagerMutex :=
  Pager.new_dynamic "" LineNumbers.Disabled

/-- Embedding of `enum RunMode` (src/src/core/mod.rs, lines 10-17), with
both build features enabled so that all three variants are present. -/
inductive RunMode where
  | Static
  | Dynamic
  | Uninitialized
deriving DecidableEq

/-- Embedding of `RunMode::is_uninitialized` (src/src/core/mod.rs,
lines 29-31): `self == Self::Uninitialized`. -/
def RunMode.is_uninitialized (m : RunMode) : Bool :=
  m == RunMode.Uninitialized

/-- Modelled from the spec: the search state of the data model (section 3) —
the active pattern, the ordered match positions, and the index of the
currently selected match (or none).  The search module
`src/core/search.rs` is not part of the given sources. -/
structure SearchState where
  pattern : String
  match_list : List (Nat × Nat)
  current : Option Nat
deriving DecidableEq

/-- Modelled from the spec: the full Pager State of the data model
(section 3).  The mutating operations of section 4.1 live in modules that
are not part of the given sources, so the state is reconstructed from the
spec: content as an ordered sequence of lines, the line-numbering mode, the
scroll offset ("upper mark"), the optional search state, and the run mode
set once at construction. -/
structure PagerState where
  content : List String
  line_numbering_mode : LineNumbers
  scroll_offset : Nat
  search_state : Option SearchState
  run_mode : RunMode
deriving DecidableEq

/-- Modelled from the spec: the number of lines of the content. -/
def PagerState.total_line_count (st : PagerState) : Nat :=
  st.content.length

/-- Modelled from the spec: the upper bound
`max(0, total_line_count - viewport_height)` of the scroll-offset
invariant; truncated `Nat` subtraction is exactly `max(0, a - b)`. -/
def PagerState.max_scroll (st : PagerState) (viewport_height : Nat) : Nat :=
  st.total_line_count - viewport_height

/-- Modelled from the spec: re-clamping of the scroll offset into
`[0, max(0, total_line_count - viewport_height)]`, performed after any
mutation of the content or of the viewport height. -/
def PagerState.clamp (st : PagerState) (viewport_height : Nat) : PagerState :=
  { st with scroll_offset := min st.scroll_offset (st.max_scroll viewport_height) }

/-- Modelled from the spec: `create_static(content, line_numbering)` of
section 4.1 — a fresh state with run mode `Static`, scroll offset 0 and no
search state. -/
def create_static (content : List String) (ln : LineNumbers) : PagerState :=
  { content := content, line_numbering_mode := ln, scroll_offset := 0,
    search_state := none, run_mode := RunMode.Static }

/-- Modelled from the spec: the shared handle returned by
`create_dynamic`, modelled by the state it wraps. -/
structure SharedPagerState where
  state : PagerState
deriving DecidableEq

/-- Modelled from the spec: `create_dynamic(content, line_numbering)` of
section 4.1 — the same fresh state with run mode `Dynamic`, wrapped for
cross-actor access. -/
def create_dynamic (content : List String) (ln : LineNumbers) : SharedPagerState :=
  { state := { content := content, line_numbering_mode := ln, scroll_offset := 0,
               search_state := none, run_mode := RunMode.Dynamic } }

/-- Modelled from the spec: `set_content` of section 4.1 — replace the
content, invalidate any stale match list, and re-clamp the scroll offset. -/
def PagerState.set_content (st : PagerState) (viewport_height : Nat)
    (c : List String) : PagerState :=
  ({ st with content := c, search_state := none }).clamp viewport_height

/-- Modelled from the spec: `append_content` of section 4.1 — append to the
content, invalidate any stale match list, and re-clamp the scroll offset. -/
def PagerState.append_content (st : PagerState) (viewport_height : Nat)
    (c : List String) : PagerState :=
  ({ st with content := st.content ++ c, search_state := none }).clamp viewport_height

/-- Modelled from the spec: `set_line_numbering` of section 4.1 — switch
the line-numbering mode and re-clamp the scroll offset. -/
def PagerState.set_line_numbering (st : PagerState) (viewport_height : Nat)
    (ln : LineNumbers) : PagerState :=
  ({ st with line_numbering_mode := ln }).clamp viewport_height

/-- Modelled from the spec: `scroll_to(offset)` of section 4.1 — set the
scroll offset and clamp it into bounds; out-of-range input is clamped,
never an error. -/
def PagerState.scroll_to (st : PagerState) (viewport_height : Nat)
    (offset : Nat) : PagerState :=
  ({ st with scroll_offset := offset }).clamp viewport_height

/-- Modelled from the spec: `scroll_by(delta)` of section 4.1 — move the
scroll offset by a signed delta, saturating at the bounds rather than
wrapping or erroring (`Int.toNat` saturates at 0, `clamp` at the upper
bound). -/
def PagerState.scroll_by (st : PagerState) (viewport_height : Nat)
    (delta : Int) : PagerState :=
  st.scroll_to viewport_height (Int.toNat ((st.scroll_offset : Int) + delta))

/-- Modelled from the spec: one mutating Pager State operation of
section 4.1, as data, so that arbitrary call sequences can be stated. -/
inductive PagerOp where
  | set_content : List String → PagerOp
  | append_content : List String → PagerOp
  | set_line_numbering : LineNumbers → PagerOp
  | scroll_to : Nat → PagerOp
  | scroll_by : Int → PagerOp

/-- Modelled from the spec: interpretation of one mutating operation at a
given viewport height.  Every operation is a total function: no panic, all
out-of-range inputs are clamped. -/
def PagerState.apply_op (st : PagerState) (viewport_height : Nat) :
    PagerOp → PagerState
  | PagerOp.set_content c => st.set_content viewport_height c
  | PagerOp.append_content c => st.append_content viewport_height c
  | PagerOp.set_line_numbering ln => st.set_line_numbering viewport_height ln
  | PagerOp.scroll_to o => st.scroll_to viewport_height o
  | PagerOp.scroll_by d => st.scroll_by viewport_height d

/-- Modelled from the spec: a whole sequence of mutating operations run in
order at a fixed viewport height. -/
def PagerState.run_ops (st : PagerState) (viewport_height : Nat) :
    List PagerOp → PagerState
  | [] => st
  | op :: ops => (st.apply_op viewport_height op).run_ops viewport_height ops

/-- Modelled from the spec: case normalisation of the Search Engine — the
identity when the search is case-sensitive, lower-casing otherwise. -/
def norm_case (case_sensitive : Bool) (s : List Char) : List Char :=
  if case_sensitive then s else s.map Char.toLower

/-- Modelled from the spec: the content is conceptually an ordered sequence
of lines; this splits the text blob at every newline character. -/
def split_lines : List Char → List (List Char)
  | [] => [[]]
  | c :: rest =>
    if c = '\n' then [] :: split_lines rest
    else
      match split_lines rest with
      | [] => [[c]]
      | l :: ls => (c :: l) :: ls

/-- Modelled from the spec: the column offsets at which the pattern occurs
inside one line, in increasing order. -/
def match_cols (pat line : List Char) : List Nat :=
  (List.range line.length).filter (fun c => List.isPrefixOf pat (line.drop c))

/-- Modelled from the spec: the match positions (line index, column offset)
of a pattern over a list of lines, the first line carrying index `i`. -/
def matches_from (pat : List Char) (i : Nat) : List (List Char) → List (Nat × Nat)
  | [] => []
  | line :: rest =>
    (match_cols pat line).map (fun c => (i, c))
      ++ matches_from pat (i + 1) rest

/-- Modelled from the spec: the Search Engine contract
`compute_matches(content, pattern, case_sensitive)` of section 4.4 — the
ordered sequence of match positions (line index, column offset), empty when
the pattern is empty.  The search module is not part of the given
sources. -/
def compute_matches (content pat : String) (case_sensitive : Bool) :
    List (Nat × Nat) :=
  if pat.isEmpty then []
  else
    matches_from (norm_case case_sensitive pat.toList) 0
      ((split_lines content.toList).map (norm_case case_sensitive))

/-- Modelled from the spec: the strict ordering of match positions — by
line index first, then by column offset. -/
def pos_lt (p q : Nat × Nat) : Prop :=
  p.1 < q.1 ∨ (p.1 = q.1 ∧ p.2 < q.2)

/-- Modelled from the spec: `select_next(matches, current_index)` of
section 4.4 — cyclic over the match sequence; none on an empty sequence;
from "none" it selects the first match. -/
def select_next (ms : List (Nat × Nat)) (current : Option Nat) : Option Nat :=
  match ms, current with
  | [], _ => none
  | _ :: _, none => some 0
  | x :: rest, some i => some ((i + 1) % (x :: rest).length)

/-- Modelled from the spec: `select_previous(matches, current_index)` of
section 4.4 — cyclic over the match sequence, wrapping from first to last;
none on an empty sequence; from "none" it selects the last match. -/
def select_previous (ms : List (Nat × Nat)) (current : Option Nat) : Option Nat :=
  match ms, current with
  | [], _ => none
  | x :: rest, none => some ((x :: rest).length - 1)
  | x :: rest, some i => some ((i + (x :: rest).length - 1) % (x :: rest).length)

/-- Modelled from the spec: the error kinds of section 7.  The module
`src/error.rs` is not part of the given sources (lib.rs lines 80-82 only
re-export it). -/
inductive PagerError where
  | TerminalSetupFailed
  | LockInconsistent
  | InvalidSearchPattern
  | ProducerTaskFailed
deriving DecidableEq

/-- Modelled from the spec: the Concurrency Coordinator of section 4.2
wrapping the Pager State (the `Arc<Mutex<Pager>>` of src/src/lib.rs,
line 84).  The `poisoned` flag records that a participant failed while
holding the critical section. -/
structure Coordinator where
  state : PagerState
  poisoned : Bool
deriving DecidableEq

/-- Modelled from the spec: the scoped exclusive access
`with_state(|state| ...)` of section 4.2.  The closure returns `none` to
model a participant failing while holding the lock, which poisons it;
acquiring a poisoned lock reports the recoverable error `LockInconsistent`
and leaves the guarded state untouched instead of silently proceeding. -/
def Coordinator.with_state (c : Coordinator)
    (f : PagerState → Option PagerState) : Coordinator × Except PagerError Unit :=
  if c.poisoned then (c, Except.error PagerError.LockInconsistent)
  else
    match f c.state with
    | some s => ({ c with state := s }, Except.ok ())
    | none => ({ c with poisoned := true }, Except.error PagerError.ProducerTaskFailed)

/-- Modelled from the spec: the two concurrent actors of section 5 — the
producer and the render/event loop (the reader). -/
inductive Actor where
  | producer
  | reader
deriving DecidableEq

/-- Modelled from the spec: the global state of the dynamic mode of
section 5 — the shared line count, the lock holder, the chunk sizes the
producer still has to append, the lines remaining in the chunk currently
being appended inside the critical section, the line count after the last
completed append, the counts the reader observed, and the list of counts
after each completed append (most recent first). -/
structure SysState where
  count : Nat
  holder : Option Actor
  pending : List Nat
  in_progress : Nat
  committed : Nat
  observed : List Nat
  history : List Nat
deriving DecidableEq

/-- Modelled from the spec: the initial system state — no one holds the
lock, nothing observed, and the initial count is the only completed
value. -/
def SysInit (c0 : Nat) (pending : List Nat) : SysState :=
  { count := c0, holder := none, pending := pending, in_progress := 0,
    committed := c0, observed := [], history := [c0] }

/-- Modelled from the spec: one interleaving step of the dynamic mode.  An
append is not atomic: it adds its chunk one line at a time, but the whole
chunk sits inside one critical section of the Coordinator.  The reader
acquires the lock, observes the line count, and releases.  Acquisition
requires the lock to be free, which is the whole mutual-exclusion
discipline of section 4.2. -/
inductive SysStep : SysState → SysState → Prop where
  | prodAcquire (s : SysState) (n : Nat) (rest : List Nat) :
      s.holder = none → s.pending = n :: rest →
      SysStep s { s with holder := some Actor.producer, in_progress := n,
                         pending := rest }
  | prodStep (s : SysState) (k : Nat) :
      s.holder = some Actor.producer → s.in_progress = k + 1 →
      SysStep s { s with count := s.count + 1, in_progress := k }
  | prodRelease (s : SysState) :
      s.holder = some Actor.producer → s.in_progress = 0 →
      SysStep s { s with holder := none, committed := s.count,
                         history := s.count :: s.history }
  | readAcquire (s : SysState) :
      s.holder = none →
      SysStep s { s with holder := some Actor.reader }
  | readObserve (s : SysState) :
      s.holder = some Actor.reader →
      SysStep s { s with observed := s.count :: s.observed }
  | readRelease (s : SysState) :
      s.holder = some Actor.reader →
      SysStep s { s with holder := none }

/-- Modelled from the spec: the states reachable from a given initial
state under any interleaving of producer and reader steps. -/
inductive Reachable (s0 : SysState) : SysState → Prop where
  | refl : Reachable s0 s0
  | tail {s t : SysState} : Reachable s0 s → SysStep s t → Reachable s0 t

/-- Modelled from the spec: the coherence invariant of the dynamic mode —
outside the producer's critical section the shared count is the last
completed one, the most recently completed count heads the history, and
every observed count is a completed (never torn) one. -/
def SysInv (s : SysState) : Prop :=
  (s.holder ≠ some Actor.producer → s.count = s.committed) ∧
  s.history.head? = some s.committed ∧
  (∀ o ∈ s.observed, o ∈ s.history)

/-- Sample pager state used by concrete witnesses: 100 lines of content, a
viewport of height 20, scrolled to offset 50. -/
def sample_state : PagerState :=
  (create_static (List.replicate 100 "line") LineNumbers.Disabled).scroll_to 20 50

/-- Sample match list used by concrete witnesses. -/
def sample_matches : List (Nat × Nat) :=
  [(0, 0), (1, 2), (3, 0)]

/-- Sample coordinator used by concrete witnesses: fresh, not poisoned. -/
def sample_coordinator : Coordinator :=
  { state := create_static [] LineNumbers.Disabled, poisoned := false }

/-- Final state of the concrete interleaving used by the no-torn-read
witness: one chunk of two lines appended, then one read. -/
def sys_demo_final : SysState :=
  { count := 2, holder := none, pending := [], in_progress := 0,
    committed := 2, observed := [2], history := [2, 0] }

/-- Clamping really lands inside the invariant bound. -/
theorem clamp_scroll_le (st : PagerState) (h : Nat) :
    (st.clamp h).scroll_offset ≤ (st.clamp h).max_scroll h := by
  simp [PagerState.clamp, PagerState.max_scroll, PagerState.total_line_count]

/-- Every mutating operation leaves the scroll offset inside the invariant
bound of the state it produces. -/
theorem apply_op_clamped (st : PagerState) (h : Nat) (op : PagerOp) :
    (st.apply_op h op).scroll_offset ≤ (st.apply_op h op).max_scroll h := by
  cases op <;>
    simp [PagerState.apply_op, PagerState.set_content, PagerState.append_content,
      PagerState.set_line_numbering, PagerState.scroll_to, PagerState.scroll_by,
      PagerState.clamp, PagerState.max_scroll, PagerState.total_line_count]

/-- No mutating operation touches the run mode. -/
theorem apply_op_run_mode (st : PagerState) (h : Nat) (op : PagerOp) :
    (st.apply_op h op).run_mode = st.run_mode := by
  cases op <;> rfl

/-- No sequence of mutating operations touches the run mode. -/
theorem run_ops_run_mode (h : Nat) (ops : List PagerOp) :
    ∀ st : PagerState, (st.run_ops h ops).run_mode = st.run_mode := by
  induction ops with
  | nil => intro st; rfl
  | cons op ops ih =>
      intro st
      have hx := ih (st.apply_op h op)
      simpa [PagerState.run_ops, apply_op_run_mode] using hx

/-- After at least one operation, any further sequence keeps the scroll
offset inside the invariant bound. -/
theorem run_ops_clamped (h : Nat) (ops : List PagerOp) :
    ∀ (st : PagerState) (op : PagerOp),
      ((st.apply_op h op).run_ops h ops).scroll_offset
        ≤ ((st.apply_op h op).run_ops h ops).max_scroll h := by
  induction ops with
  | nil => intro st op; simpa [PagerState.run_ops] using apply_op_clamped st h op
  | cons o os ih =>
      intro st op
      simpa [PagerState.run_ops] using ih (st.apply_op h op) o

/-- C1: for every Pager state, every sequence of mutating calls (which
includes every sequence of scroll_by/scroll_to calls) and every viewport
height, the scroll offset stays within
`[0, max(0, total_line_count - viewport_height)]` — the lower bound is
inherent in `Nat`, the upper bound is `max_scroll`; and with 100 lines of
content and viewport height 20, `scroll_to 90` leaves the offset at 80. -/
theorem scroll_offset_invariant :
    (∀ (st : PagerState) (h : Nat) (op : PagerOp) (ops : List PagerOp),
      ((st.apply_op h op).run_ops h ops).scroll_offset
        ≤ ((st.apply_op h op).run_ops h ops).max_scroll h)
    ∧ ((create_static (List.replicate 100 "line") LineNumbers.Disabled).scroll_to
        20 90).scroll_offset = 80 :=
  ⟨fun st h op ops => run_ops_clamped h ops st op, by decide⟩

/-- C2: the zero-argument default constructors return a pager whose content
is the empty string, whose line-numbering mode is Disabled, and whose
scroll offset (`upper_mark`) is 0. -/
theorem defaults_empty_disabled_zero :
    Pager.default_static.lines = "" ∧
    Pager.default_static.line_numbers = LineNumbers.Disabled ∧
    Pager.default_static.upper_mark = 0 ∧
    Pager.default_dynamic.pager.lines = "" ∧
    Pager.default_dynamic.pager.line_numbers = LineNumbers.Disabled ∧
    Pager.default_dynamic.pager.upper_mark = 0 :=
  ⟨rfl, rfl, rfl, rfl, rfl, rfl⟩

/-- C3: `scroll_by` saturates at the bounds 0 and
`max(0, total_line_count - viewport_height)` rather than wrapping or
erroring, and every mutating operation is a total function that clamps any
out-of-range input into the invariant bound (no panic). -/
theorem mutations_clamp_no_panic :
    (∀ (st : PagerState) (h : Nat) (delta : Int),
      ((st.scroll_offset : Int) + delta ≤ 0 →
        (st.scroll_by h delta).scroll_offset = 0) ∧
      ((st.max_scroll h : Int) ≤ (st.scroll_offset : Int) + delta →
        (st.scroll_by h delta).scroll_offset = st.max_scroll h)) ∧
    (∀ (st : PagerState) (h : Nat) (op : PagerOp),
      (st.apply_op h op).scroll_offset ≤ (st.apply_op h op).max_scroll h) := by
  constructor
  · intro st h delta
    constructor
    · intro hle
      simp [PagerState.scroll_by, PagerState.scroll_to, PagerState.clamp,
        PagerState.max_scroll, PagerState.total_line_count]
      omega
    · intro hge
      simp [PagerState.max_scroll, PagerState.total_line_count] at hge
      simp [PagerState.scroll_by, PagerState.scroll_to, PagerState.clamp,
        PagerState.max_scroll, PagerState.total_line_count]
      omega
  · exact fun st h op => apply_op_clamped st h op

/-- Witness for C3: on the sample state (100 lines, height 20, offset 50) a
delta of -100 saturates at 0, a delta of +100 saturates at the upper bound,
and an out-of-range `scroll_to 500` is clamped into bounds. -/
theorem mutations_clamp_no_panic_witness :
    (sample_state.scroll_by 20 (-100)).scroll_offset = 0 ∧
    (sample_state.scroll_by 20 100).scroll_offset = sample_state.max_scroll 20 ∧
    (sample_state.apply_op 20 (PagerOp.scroll_to 500)).scroll_offset
      ≤ (sample_state.apply_op 20 (PagerOp.scroll_to 500)).max_scroll 20 := by
  refine ⟨?_, ?_, ?_⟩
  · exact (mutations_clamp_no_panic.1 sample_state 20 (-100)).1 (by decide)
  · exact (mutations_clamp_no_panic.1 sample_state 20 100).2 (by decide)
  · exact mutations_clamp_no_panic.2 sample_state 20 (PagerOp.scroll_to 500)

/-- Column lists of a single line are strictly increasing. -/
theorem match_cols_sorted (pat line : List Char) :
    List.Pairwise (· < ·) (match_cols pat line) :=
  (List.pairwise_lt_range _).filter _

/-- Every position produced from line index `i` onwards has line index at
least `i`. -/
theorem mem_matches_from_le (pat : List Char) :
    ∀ (ls : List (List Char)) (i : Nat) (p : Nat × Nat),
      p ∈ matches_from pat i ls → i ≤ p.1 := by
  intro ls
  induction ls with
  | nil => intro i p hp; simp [matches_from] at hp
  | cons line rest ih =>
      intro i p hp
      simp only [matches_from, List.mem_append, List.mem_map] at hp
      rcases hp with ⟨c, hc, rfl⟩ | hp
      · exact Nat.le_refl i
      · exact Nat.le_of_succ_le (ih (i + 1) p hp)

/-- Match positions come out strictly sorted by line, then column. -/
theorem matches_from_sorted (pat : List Char) :
    ∀ (ls : List (List Char)) (i : Nat),
      List.Pairwise pos_lt (matches_from pat i ls) := by
  intro ls
  induction ls with
  | nil => intro i; simp [matches_from]
  | cons line rest ih =>
      intro i
      simp only [matches_from]
      refine List.pairwise_append.mpr ⟨?_, ih (i + 1), ?_⟩
      · exact (match_cols_sorted pat line).map (fun c => (i, c))
          (fun a b hab => Or.inr ⟨rfl, hab⟩)
      · intro a ha b hb
        rcases List.mem_map.mp ha with ⟨c, hc, rfl⟩
        exact Or.inl (Nat.lt_of_succ_le (mem_matches_from_le pat rest (i + 1) b hb))

/-- C4 (amended): `compute_matches` returns a sequence of match positions
that is strictly ordered by line index then column offset, returns the
empty sequence whenever the pattern is empty, and for content
"a\nb\nab\n" with case-insensitive pattern "a" it returns exactly the
matches at line 0 column 0 and line 2 column 0 (there is no occurrence at
line 2 column 1, since line 2 is "ab"). -/
theorem compute_matches_contract :
    (∀ (content : String) (cs : Bool), compute_matches content "" cs = []) ∧
    (∀ (content pat : String) (cs : Bool),
      List.Pairwise pos_lt (compute_matches content pat cs)) ∧
    compute_matches "a\nb\nab\n" "a" false = [(0, 0), (2, 0)] := by
  refine ⟨fun content cs => rfl, ?_, by decide⟩
  intro content pat cs
  unfold compute_matches
  split
  · exact List.Pairwise.nil
  · exact matches_from_sorted _ _ 0

/-- Counterexample to C4 as stated: on content "a\nb\nab\n" with
case-insensitive pattern "a", the match list is not the claimed
`[(0,0), (2,0), (2,1)]`; in particular no match exists at line 2
column 1. -/
theorem compute_matches_scenario_counterexample :
    compute_matches "a\nb\nab\n" "a" false ≠ [(0, 0), (2, 0), (2, 1)] ∧
    (2, 1) ∉ compute_matches "a\nb\nab\n" "a" false := by
  decide

/-- Cyclic arithmetic: going one step forward and then one back is the
identity on indices below `n`. -/
theorem next_prev_mod (n i : Nat) (hi : i < n) :
    ((i + 1) % n + n - 1) % n = i := by
  rcases Nat.lt_or_ge (i + 1) n with hlt | hge
  · rw [Nat.mod_eq_of_lt hlt]
    have he : i + 1 + n - 1 = i + n := by omega
    rw [he, Nat.add_mod_right, Nat.mod_eq_of_lt (by omega)]
  · have he : i + 1 = n := by omega
    rw [he, Nat.mod_self]
    have h2 : 0 + n - 1 = n - 1 := by omega
    rw [h2, Nat.mod_eq_of_lt (by omega)]
    omega

/-- Cyclic arithmetic: going one step back and then one forward is the
identity on indices below `n`. -/
theorem prev_next_mod (n i : Nat) (hi : i < n) :
    ((i + n - 1) % n + 1) % n = i := by
  rcases Nat.eq_zero_or_pos i with rfl | hpos
  · have h2 : (0 + n - 1) % n = n - 1 := by
      have h1 : 0 + n - 1 = n - 1 := by omega
      rw [h1]
      exact Nat.mod_eq_of_lt (by omega)
    rw [h2, Nat.sub_add_cancel (by omega), Nat.mod_self]
  · have h2 : (i + n - 1) % n = i - 1 := by
      have h1 : i + n - 1 = (i - 1) + n := by omega
      rw [h1, Nat.add_mod_right]
      exact Nat.mod_eq_of_lt (by omega)
    rw [h2, Nat.sub_add_cancel (by omega), Nat.mod_eq_of_lt hi]

/-- C5: on a non-empty match list, `select_next` then `select_previous`
(and vice versa) returns the original index, both navigations wrap
cyclically between the first and the last match, and on an empty match
list both return none without erroring. -/
theorem select_cyclic_inverse :
    (∀ (ms : List (Nat × Nat)) (i : Nat), ms ≠ [] → i < ms.length →
      select_previous ms (select_next ms (some i)) = some i ∧
      select_next ms (select_previous ms (some i)) = some i) ∧
    (∀ ms : List (Nat × Nat), ms ≠ [] →
      select_next ms (some (ms.length - 1)) = some 0 ∧
      select_previous ms (some 0) = some (ms.length - 1)) ∧
    (∀ c : Option Nat, select_next [] c = none ∧ select_previous [] c = none) := by
  refine ⟨?_, ?_, fun c => ⟨rfl, rfl⟩⟩
  · intro ms i hne hi
    obtain ⟨x, rest, rfl⟩ := List.exists_cons_of_ne_nil hne
    simp only [List.length_cons] at hi
    simp only [select_next, select_previous, List.length_cons]
    exact ⟨congrArg some (next_prev_mod (rest.length + 1) i hi),
      congrArg some (prev_next_mod (rest.length + 1) i hi)⟩
  · intro ms hne
    obtain ⟨x, rest, rfl⟩ := List.exists_cons_of_ne_nil hne
    simp only [select_next, select_previous, List.length_cons]
    constructor
    · have hx : (rest.length + 1 - 1 + 1) % (rest.length + 1) = 0 := by simp
      exact congrArg some hx
    · have hx : (0 + (rest.length + 1) - 1) % (rest.length + 1)
          = rest.length + 1 - 1 := by
        simp [Nat.mod_eq_of_lt (Nat.lt_succ_self _)]
      exact congrArg some hx

/-- Witness for C5: the round trips, the wrap-arounds and the empty-list
behaviour at the sample match list and index 1. -/
theorem select_cyclic_inverse_witness :
    (select_previous sample_matches (select_next sample_matches (some 1)) = some 1 ∧
     select_next sample_matches (select_previous sample_matches (some 1)) = some 1) ∧
    (select_next sample_matches (some (sample_matches.length - 1)) = some 0 ∧
     select_previous sample_matches (some 0) = some (sample_matches.length - 1)) ∧
    (select_next [] (some 0) = none ∧ select_previous [] (some 0) = none) := by
  refine ⟨?_, ?_, select_cyclic_inverse.2.2 (some 0)⟩
  · exact select_cyclic_inverse.1 sample_matches 1 (by decide) (by decide)
  · exact select_cyclic_inverse.2.1 sample_matches (by decide)

/-- C6: once a participant fails while holding the critical section the
lock is poisoned, and every subsequent acquisition reports the recoverable
error `LockInconsistent` and leaves the coordinator (hence the possibly
corrupted state) untouched instead of silently proceeding. -/
theorem poisoned_lock_reports_error :
    ∀ (c : Coordinator) (f g : PagerState → Option PagerState),
      c.poisoned = false → f c.state = none →
      (c.with_state f).1.poisoned = true ∧
      ((c.with_state f).1.with_state g).2 = Except.error PagerError.LockInconsistent ∧
      ((c.with_state f).1.with_state g).1 = (c.with_state f).1 := by
  intro c f g hp hf
  simp [Coordinator.with_state, hp, hf]

/-- Witness for C6: a fresh coordinator poisoned by a failing closure
rejects the next acquisition with `LockInconsistent`. -/
theorem poisoned_lock_reports_error_witness :
    (sample_coordinator.with_state (fun _ => none)).1.poisoned = true ∧
    ((sample_coordinator.with_state (fun _ => none)).1.with_state
        (fun s => some s)).2 = Except.error PagerError.LockInconsistent ∧
    ((sample_coordinator.with_state (fun _ => none)).1.with_state
        (fun s => some s)).1 = (sample_coordinator.with_state (fun _ => none)).1 :=
  poisoned_lock_reports_error sample_coordinator (fun _ => none) (fun s => some s)
    rfl rfl

/-- Heads of lists are members. -/
theorem mem_of_head_eq {a : Nat} {l : List Nat} (h : l.head? = some a) : a ∈ l := by
  cases l with
  | nil => simp at h
  | cons b t =>
      simp only [List.head?, Option.some.injEq] at h
      subst h
      exact List.mem_cons_self _ _

/-- The coherence invariant holds initially. -/
theorem sysinv_init (c0 : Nat) (pending : List Nat) : SysInv (SysInit c0 pending) := by
  refine ⟨fun _ => rfl, rfl, ?_⟩
  intro o ho
  simp [SysInit] at ho

/-- The coherence invariant is preserved by every interleaving step. -/
theorem sysinv_step {s t : SysState} (hs : SysInv s) (hst : SysStep s t) :
    SysInv t := by
  obtain ⟨h1, h2, h3⟩ := hs
  cases hst with
  | prodAcquire n rest hh hp =>
      exact ⟨fun hc => absurd rfl hc, h2, h3⟩
  | prodStep k hh hp =>
      exact ⟨fun hc => absurd hh hc, h2, h3⟩
  | prodRelease hh hp =>
      exact ⟨fun _ => rfl, rfl, fun o ho => List.mem_cons_of_mem _ (h3 o ho)⟩
  | readAcquire hh =>
      exact ⟨fun _ => h1 (by rw [hh]; simp), h2, h3⟩
  | readObserve hh =>
      refine ⟨fun hc => h1 hc, h2, ?_⟩
      intro o ho
      rcases List.mem_cons.mp ho with rfl | ho2
      · have hcc : s.count = s.committed := h1 (by rw [hh]; simp)
        rw [hcc]
        exact mem_of_head_eq h2
      · exact h3 o ho2
  | readRelease hh =>
      exact ⟨fun _ => h1 (by rw [hh]; simp), h2, h3⟩

/-- The coherence invariant holds in every reachable state. -/
theorem sysinv_reachable {s0 s : SysState} (h0 : SysInv s0)
    (hr : Reachable s0 s) : SysInv s := by
  induction hr with
  | refl => exact h0
  | tail _ hstep ih => exact sysinv_step ih hstep

/-- C7: under every interleaving of producer appends and reader
acquisitions through the Coordinator, every line count the reader observed
is a completed (pre-append or post-append) value, never a torn mid-append
one, and whenever the producer is not inside its critical section — in
particular at the start of each reader tick — the shared count is exactly
the most recently completed update (the head of the history). -/
theorem no_torn_reads (c0 : Nat) (pending : List Nat) (s : SysState)
    (hr : Reachable (SysInit c0 pending) s) :
    (∀ o ∈ s.observed, o ∈ s.history) ∧
    s.history.head? = some s.committed ∧
    (s.holder ≠ some Actor.producer → s.count = s.committed) := by
  obtain ⟨h1, h2, h3⟩ := sysinv_reachable (sysinv_init c0 pending) hr
  exact ⟨h3, h2, h1⟩

/-- Witness for C7: a concrete interleaving — the producer appends one
chunk of two lines inside one critical section, then the reader acquires,
observes and releases — reaches `sys_demo_final`, whose observation list
contains only completed values. -/
theorem no_torn_reads_witness :
    (∀ o ∈ sys_demo_final.observed, o ∈ sys_demo_final.history) ∧
    sys_demo_final.history.head? = some sys_demo_final.committed ∧
    (sys_demo_final.holder ≠ some Actor.producer →
      sys_demo_final.count = sys_demo_final.committed) := by
  have t1 : SysStep (SysInit 0 [2])
      { count := 0, holder := some Actor.producer, pending := [], in_progress := 2,
        committed := 0, observed := [], history := [0] } :=
    SysStep.prodAcquire _ 2 [] rfl rfl
  have t2 : SysStep
      { count := 0, holder := some Actor.producer, pending := [], in_progress := 2,
        committed := 0, observed := [], history := [0] }
      { count := 1, holder := some Actor.producer, pending := [], in_progress := 1,
        committed := 0, observed := [], history := [0] } :=
    SysStep.prodStep _ 1 rfl rfl
  have t3 : SysStep
      { count := 1, holder := some Actor.producer, pending := [], in_progress := 1,
        committed := 0, observed := [], history := [0] }
      { count := 2, holder := some Actor.producer, pending := [], in_progress := 0,
        committed := 0, observed := [], history := [0] } :=
    SysStep.prodStep _ 0 rfl rfl
  have t4 : SysStep
      { count := 2, holder := some Actor.producer, pending := [], in_progress := 0,
        committed := 0, observed := [], history := [0] }
      { count := 2, holder := none, pending := [], in_progress := 0,
        committed := 2, observed := [], history := [2, 0] } :=
    SysStep.prodRelease _ rfl rfl
  have t5 : SysStep
      { count := 2, holder := none, pending := [], in_progress := 0,
        committed := 2, observed := [], history := [2, 0] }
      { count := 2, holder := some Actor.reader, pending := [], in_progress := 0,
        committed := 2, observed := [], history := [2, 0] } :=
    SysStep.readAcquire _ rfl
  have t6 : SysStep
      { count := 2, holder := some Actor.reader, pending := [], in_progress := 0,
        committed := 2, observed := [], history := [2, 0] }
      { count := 2, holder := some Actor.reader, pending := [], in_progress := 0,
        committed := 2, observed := [2], history := [2, 0] } :=
    SysStep.readObserve _ rfl
  have t7 : SysStep
      { count := 2, holder := some Actor.reader, pending := [], in_progress := 0,
        committed := 2, observed := [2], history := [2, 0] }
      sys_demo_final :=
    SysStep.readRelease _ rfl
  have hr : Reachable (SysInit 0 [2]) sys_demo_final :=
    Reachable.tail (Reachable.tail (Reachable.tail (Reachable.tail (Reachable.tail
      (Reachable.tail (Reachable.tail Reachable.refl t1) t2) t3) t4) t5) t6) t7
  exact no_torn_reads 0 [2] sys_demo_final hr

/-- C8: the run mode is one of Static, Dynamic, Uninitialized; it is set at
construction (`create_static` gives Static, `create_dynamic` gives
Dynamic), never changed afterwards by any mutating operation, and no
constructed pager, however mutated, ever has run mode Uninitialized. -/
theorem run_mode_fixed_at_construction :
    (∀ (st : PagerState) (h : Nat) (ops : List PagerOp),
      (st.run_ops h ops).run_mode = st.run_mode) ∧
    (∀ (content : List String) (ln : LineNumbers),
      (create_static content ln).run_mode = RunMode.Static ∧
      (create_dynamic content ln).state.run_mode = RunMode.Dynamic) ∧
    (∀ (content : List String) (ln : LineNumbers) (h : Nat) (ops : List PagerOp),
      ((create_static content ln).run_ops h ops).run_mode ≠ RunMode.Uninitialized ∧
      ((create_dynamic content ln).state.run_ops h ops).run_mode
        ≠ RunMode.Uninitialized) := by
  refine ⟨fun st h ops => run_ops_run_mode h ops st, fun c ln => ⟨rfl, rfl⟩, ?_⟩
  intro c ln h ops
  constructor
  · rw [run_ops_run_mode]
    simp [create_static]
  · rw [run_ops_run_mode]
    simp [create_dynamic]

/-- C9: `is_uninitialized` returns true exactly on `RunMode.Uninitialized`,
and in particular returns false on Static and on Dynamic. -/
theorem is_uninitialized_spec :
    (∀ m : RunMode, m.is_uninitialized = true ↔ m = RunMode.Uninitialized) ∧
    RunMode.Static.is_uninitialized = false ∧
    RunMode.Dynamic.is_uninitialized = false := by
  refine ⟨?_, rfl, rfl⟩
  intro m
  cases m <;> simp [RunMode.is_uninitialized]

/-- C10: the pager value `new_dynamic` wraps in its shared handle is
identical to the pager `new_static` returns on the same arguments: the
given content, the given line-numbering mode, and `upper_mark` 0. -/
theorem new_dynamic_refines_new_static :
    ∀ (lines : String) (ln : LineNumbers),
      (Pager.new_dynamic lines ln).pager = Pager.new_static lines ln ∧
      (Pager.new_static lines ln).lines = lines ∧
      (Pager.new_static lines ln).line_numbers = ln ∧
      (Pager.new_static lines ln).upper_mark = 0 :=
  fun _ _ => ⟨rfl, rfl, rfl, rfl⟩

end Minus
